import Mathlib

/-!
Shallow embedding of `order_create.py` (Syrve API order-management script).

The script drives an interactive pipeline: obtain an access token, list
organizations, list terminal groups, list restaurant sections/tables, list
payment types, collect order details from the operator, and POST an order
document.  Remote responses are modelled as a `HttpResult` (a 2xx response
with a parsed JSON body, a non-2xx response on which `raise_for_status`
raises `requests.HTTPError`, or any other exception: network failure or an
unparseable body raising in `response.json()`).  Python JSON values are
modelled as `JVal`; Python `dict.get` is association-list lookup; numeric
values are `Rat` (the claims only involve exactly representable decimals).
-/

namespace Syrve

/-- Python/JSON values as returned by `response.json()` and manipulated by
the script: `None`, booleans, numbers (as exact rationals), strings,
lists and dicts (association lists; JSON dict keys are unique). -/
inductive JVal where
  | null
  | bool (b : Bool)
  | num (q : Rat)
  | str (s : String)
  | arr (xs : List JVal)
  | obj (kvs : List (String × JVal))

/-- First-match lookup in a dict, i.e. Python `d.get(key)` returning `None`
(here `none`) when the key is absent. -/
def lookupKey : List (String × JVal) → String → Option JVal
  | [], _ => none
  | (k, v) :: rest, key => if k = key then some v else lookupKey rest key

/-- Python `d.get(key, default)`. -/
def lookupKeyD (kvs : List (String × JVal)) (key : String) (d : JVal) : JVal :=
  (lookupKey kvs key).getD d

/-- Python truthiness of a value, as used in `if not token:`, `if tg_id:`,
`if result:` and similar checks in the script. -/
def JVal.falsy : JVal → Bool
  | .null => true
  | .bool b => !b
  | .num q => q == 0
  | .str s => s == ""
  | .arr xs => xs.isEmpty
  | .obj kvs => kvs.isEmpty

/-- Outcome of one HTTP request as the script observes it: a 2xx status
with a JSON-parsed body (`ok`), a non-2xx status on which
`raise_for_status` raises `requests.HTTPError` carrying the response text
(`httpErr`), or any other exception — network failure, timeout, or a body
on which `response.json()` raises (`exn`). -/
inductive HttpResult where
  | ok (body : JVal)
  | httpErr (text : String)
  | exn

/-- Whitespace removal at both ends of a character list. -/
def stripChars (cs : List Char) : List Char :=
  ((cs.dropWhile Char.isWhitespace).reverse.dropWhile Char.isWhitespace).reverse

/-- Python `str.strip()` (whitespace removal at both ends). -/
def pyStrip (s : String) : String := ⟨stripChars s.data⟩

/-- Digit run to its decimal value. -/
def digitsVal (cs : List Char) : Nat :=
  cs.foldl (fun a c => a * 10 + (c.toNat - 48)) 0

/-- All characters are ASCII decimal digits. -/
def allDigits (cs : List Char) : Bool := cs.all Char.isDigit

/-- Magnitude part of Python `float()` on a decimal literal: digits with an
optional single decimal point (`"1"`, `"1."`, `".5"`, `"10.0"`). The model
covers plain decimal literals; exponent forms, `inf`/`nan` and underscore
separators are outside the modelled input space. -/
def pyFloatMag (cs : List Char) : Option Rat :=
  match cs.splitOn '.' with
  | [ip] =>
      if ip ≠ [] ∧ allDigits ip then some (digitsVal ip) else none
  | [ip, fp] =>
      if (ip ≠ [] ∨ fp ≠ []) ∧ allDigits ip ∧ allDigits fp then
        some ((digitsVal ip : Rat) + (digitsVal fp : Rat) / (10 ^ fp.length : Rat))
      else none
  | _ => none

/-- Python `float(s)` on decimal literals: strips whitespace, accepts an
optional sign, returns `none` exactly when Python raises `ValueError`. -/
def pyFloat (s : String) : Option Rat :=
  match (pyStrip s).data with
  | [] => none
  | '+' :: rest => pyFloatMag rest
  | '-' :: rest => (pyFloatMag rest).map Neg.neg
  | cs => pyFloatMag cs

/-- Magnitude part of Python `int()`: a nonempty run of digits. -/
def pyIntMag (cs : List Char) : Option Int :=
  if cs ≠ [] ∧ allDigits cs then some (digitsVal cs) else none

/-- Python `int(s)`: strips whitespace, accepts an optional sign, returns
`none` exactly when Python raises `ValueError` (underscore separators are
outside the modelled input space). -/
def pyInt (s : String) : Option Int :=
  match (pyStrip s).data with
  | [] => none
  | '+' :: rest => pyIntMag rest
  | '-' :: rest => (pyIntMag rest).map Neg.neg
  | cs => pyIntMag cs

/-! ### `get_access_token` (order_create.py lines 19-45) and the auth gate in `main` -/

/-- Embedding of `get_access_token`: on a 2xx response it reads
`data.get('token')` and returns `None` when the field is absent or falsy
(`if not token`); a non-dict body raises in `.get` and any exception —
`requests.HTTPError` from a non-2xx status, a network failure, or an
unparseable body — is caught and `None` is returned. -/
def get_access_token : HttpResult → Option JVal
  | .ok (.obj kvs) =>
      match lookupKey kvs "token" with
      | none => none
      | some t => if t.falsy then none else some t
  | .ok _ => none
  | .httpErr _ => none
  | .exn => none

/-- Embedding of the auth gate in `main` (lines 263-266): `if not token:
return` — the pipeline continues past authentication exactly when
`get_access_token` produced a truthy token. -/
def main_proceeds_past_auth (r : HttpResult) : Bool :=
  match get_access_token r with
  | none => false
  | some t => !t.falsy

/-! ### `get_available_restaurant_sections` (lines 117-145) and
`get_payment_types` (lines 148-174) -/

/-- Embedding of `get_available_restaurant_sections`: on a 2xx response it
returns `data.get('restaurantSections', [])`; every error path — non-2xx
status, network failure, unparseable body, a non-dict body raising in
`.get`, or a non-sequence field value raising in the `len` logging call —
is caught and the empty list is returned.  (Field values supporting `len`
but not of list shape are outside the modelled response space.) -/
def get_available_restaurant_sections : HttpResult → List JVal
  | .ok (.obj kvs) =>
      match lookupKeyD kvs "restaurantSections" (.arr []) with
      | .arr xs => xs
      | _ => []
  | .ok _ => []
  | .httpErr _ => []
  | .exn => []

/-- Embedding of `get_payment_types`: on a 2xx response it returns
`data.get('paymentTypes', [])`; every error path is caught and the empty
list is returned, exactly as in `get_available_restaurant_sections`. -/
def get_payment_types : HttpResult → List JVal
  | .ok (.obj kvs) =>
      match lookupKeyD kvs "paymentTypes" (.arr []) with
      | .arr xs => xs
      | _ => []
  | .ok _ => []
  | .httpErr _ => []
  | .exn => []

/-! ### `get_terminal_groups` (lines 71-114) -/

/-- One merged terminal-group entry as built at lines 101-105: the item's
`id`, its `name` (default `'NoName'`), and the owning block's
`organizationId` (`none` when the block lacks the field, i.e. Python
`None`). -/
structure TGroup where
  id : JVal
  name : JVal
  organizationId : Option JVal

/-- Inner loop over one block's `items` (lines 97-105): a non-dict item
raises (propagated as `.error`), an item whose `id` is absent or falsy is
silently dropped (`if tg_id:`), and every kept item carries the block's
`organizationId` and its `name` (default `'NoName'`). -/
def tgItems (orgId : Option JVal) : List JVal → Except Unit (List TGroup)
  | [] => .ok []
  | .obj kvs :: rest =>
      match tgItems orgId rest with
      | .error e => .error e
      | .ok tail =>
          match lookupKey kvs "id" with
          | none => .ok tail
          | some tid =>
              if tid.falsy then .ok tail
              else .ok (⟨tid, lookupKeyD kvs "name" (.str "NoName"), orgId⟩ :: tail)
  | _ :: _ => .error ()

/-- Outer loop over the concatenated blocks (lines 94-105): each block must
be a dict with a list-or-absent `items` field, contributing its processed
items in order. -/
def tgBlocksRun : List JVal → Except Unit (List TGroup)
  | [] => .ok []
  | .obj kvs :: rest =>
      match lookupKeyD kvs "items" (.arr []) with
      | .arr xs =>
          match tgItems (lookupKey kvs "organizationId") xs with
          | .error e => .error e
          | .ok cur =>
              match tgBlocksRun rest with
              | .error e => .error e
              | .ok tail => .ok (cur ++ tail)
      | _ => .error ()
  | _ :: _ => .error ()

/-- Parsing of a 2xx terminal-groups body (lines 89-105): the two partition
fields `terminalGroups` and `terminalGroupsInSleep` (each defaulting to
`[]`) are concatenated — active partition first — and processed as one
block list. -/
def tgParse (body : JVal) : Except Unit (List TGroup) :=
  match body with
  | .obj kvs =>
      match lookupKeyD kvs "terminalGroups" (.arr []),
            lookupKeyD kvs "terminalGroupsInSleep" (.arr []) with
      | .arr act, .arr slp => tgBlocksRun (act ++ slp)
      | _, _ => .error ()
  | _ => .error ()

/-- Block list of a terminal-groups response body, as concatenated at line
92: active partition first, then the sleeping partition. -/
def tg_response_blocks : JVal → List JVal
  | .obj kvs =>
      (match lookupKeyD kvs "terminalGroups" (.arr []) with
       | .arr xs => xs
       | _ => []) ++
      (match lookupKeyD kvs "terminalGroupsInSleep" (.arr []) with
       | .arr xs => xs
       | _ => [])
  | _ => []

/-- Embedding of `get_terminal_groups`: the request carries the scoping
`organization_ids` (see `terminal_groups_request`) but the result is built
purely from the response; every exception — non-2xx, network failure,
unparseable body, or a shape error while processing — is caught and the
empty list is returned. -/
def get_terminal_groups (organization_ids : List JVal) (r : HttpResult) :
    List TGroup :=
  match r with
  | .ok body =>
      match organization_ids, tgParse body with
      | _, .ok gs => gs
      | _, .error _ => []
  | .httpErr _ => []
  | .exn => []

/-- Request payload of `get_terminal_groups` (lines 80-84), recorded to
show where the scoping identifiers go: into the request only. -/
def terminal_groups_request (organization_ids : List JVal) : JVal :=
  .obj [("organizationIds", .arr organization_ids),
        ("includeDisabled", .bool true),
        ("returnExternalData", .arr [.str "string"])]

/-! ### `create_order` (lines 177-258): payload construction and submission -/

/-- Inputs `create_order` receives from `main` after the interactive
steps.  `order_id` and `position_id` stand for the two `uuid.uuid4()`
values generated at lines 192-193 (nondeterministic fresh strings, so they
are parameters of the embedding). -/
structure OrderInputs where
  organization_id : JVal
  terminal_group_id : JVal
  table_id : JVal
  customer_name : String
  customer_phone : String
  product_id : String
  product_price : Rat
  product_quantity : Rat
  payment_type_id : JVal
  payment_sum : Rat

/-- The request payload built at lines 195-241, field for field: the nested
order carries the table, customer, a single phone field, one item line and
one payment, plus the fixed `createOrderSettings`. -/
def order_payload (order_id position_id : String) (i : OrderInputs) : JVal :=
  .obj [("organizationId", i.organization_id),
        ("terminalGroupId", i.terminal_group_id),
        ("order", .obj
          [("id", .str order_id),
           ("tableIds", .arr [i.table_id]),
           ("customer", .obj [("name", .str i.customer_name),
                              ("type", .str "regular")]),
           ("phone", .str i.customer_phone),
           ("items", .arr
             [.obj [("positionId", .str position_id),
                    ("productId", .str i.product_id),
                    ("type", .str "Product"),
                    ("price", .num i.product_price),
                    ("amount", .num i.product_quantity)]]),
           ("payments", .arr
             [.obj [("paymentTypeKind", .str "Cash"),
                    ("sum", .num i.payment_sum),
                    ("paymentTypeId", i.payment_type_id),
                    ("isProcessedExternally", .bool false),
                    ("isFiscalizedExternally", .bool false),
                    ("isPrepay", .bool false)]])]),
        ("createOrderSettings", .obj
          [("servicePrint", .bool false),
           ("transportToFrontTimeout", .num 15),
           ("checkStopList", .bool false)])]

/-- Submission part of `create_order` (lines 243-258): one POST is issued
and its response interpreted — on 2xx the parsed body is returned, on any
exception (non-2xx status, network failure, unparseable body) the empty
dict is returned.  The second component records the number of POSTs the
call issues; the body contains a single `requests.post` with no loop, so
it is `1` on every path. -/
def create_order (r : HttpResult) : JVal × Nat :=
  match r with
  | .ok body => (body, 1)
  | .httpErr _ => (.obj [], 1)
  | .exn => (.obj [], 1)

/-- Failure check `main` applies to the result of `create_order` at line
423 (`if result:`): the empty dict returned on every error path is falsy. -/
def submission_failed (result : JVal) : Bool := result.falsy

/-! ### Operator-input steps of `main` (lines 261-426) -/

/-- Outcome of one numbered-list prompt: `abort` prints a message and
returns from `main`; `chosen k` proceeds with the 0-based index `k`. -/
inductive PromptOutcome where
  | abort
  | chosen (k : Nat)

/-- Embedding of the organization / terminal-group / table selection
prompts (lines 279-287, 302-310, 338-346): `int(...)` raising `ValueError`
aborts, an index `< 1` or `> n` aborts, otherwise the run proceeds with
the 0-based index. -/
def select_index (inp : String) (n : Nat) : PromptOutcome :=
  match pyInt inp with
  | none => .abort
  | some i => if i < 1 ∨ i > (n : Int) then .abort else .chosen (i.toNat - 1)

/-- Embedding of the payment-type prompt (lines 357-369): a blank input
picks the first type; a non-blank input is parsed with `int(...)` — on
`ValueError` the code prints a warning and falls back to the FIRST type
(it does not abort), on an index `< 1` or `> n` it aborts, otherwise it
proceeds with the 0-based index. -/
def select_payment_type_index (inp : String) (n : Nat) : PromptOutcome :=
  if pyStrip inp ≠ "" then
    match pyInt inp with
    | some i => if i < 1 ∨ i > (n : Int) then .abort else .chosen (i.toNat - 1)
    | none => .chosen 0
  else .chosen 0

/-- Payment-sum step (lines 397-405): a non-blank input is parsed with
`float(...)`, falling back to `product_price * product_quantity` on
`ValueError`; a blank input takes the product directly. -/
def payment_sum_step (product_price product_quantity : Rat)
    (payment_sum_input : String) : Rat :=
  if pyStrip payment_sum_input ≠ "" then
    match pyFloat payment_sum_input with
    | some s => s
    | none => product_price * product_quantity
  else product_price * product_quantity

/-- Order-details step (lines 383-405): the run aborts (`none`) when the
product id is blank (line 384) or when price or quantity fails to parse as
a float (lines 388-393); otherwise it proceeds with the parsed price and
quantity and the payment sum from `payment_sum_step`. -/
def order_details_step (product_id price_input quantity_input
    payment_sum_input : String) : Option (Rat × Rat × Rat) :=
  if pyStrip product_id = "" then none
  else
    match pyFloat price_input, pyFloat quantity_input with
    | some p, some q => some (p, q, payment_sum_step p q payment_sum_input)
    | _, _ => none

/-- Composition of the detail-collection steps with the payload builder
(lines 383-421): the document `main` hands to `create_order`, or `none`
when the details step aborted and no document is built. -/
def main_build_document (order_id position_id : String)
    (organization_id terminal_group_id table_id payment_type_id : JVal)
    (customer_name customer_phone : String)
    (product_id price_input quantity_input payment_sum_input : String) :
    Option JVal :=
  (order_details_step product_id price_input quantity_input
      payment_sum_input).map
    (fun pqs =>
      order_payload order_id position_id
        { organization_id := organization_id
          terminal_group_id := terminal_group_id
          table_id := table_id
          customer_name := customer_name
          customer_phone := customer_phone
          product_id := product_id
          product_price := pqs.1
          product_quantity := pqs.2.1
          payment_type_id := payment_type_id
          payment_sum := pqs.2.2 })

/-- Lookup of a field in a built payload (dict access used to state
properties of the document). -/
def jField (v : JVal) (key : String) : Option JVal :=
  match v with
  | .obj kvs => lookupKey kvs key
  | _ => none

/-- Sums of the payments of a built payload, in order. -/
def payload_payment_sums (p : JVal) : List JVal :=
  match (jField p "order").bind (fun o => jField o "payments") with
  | some (.arr l) => l.filterMap (fun pay => jField pay "sum")
  | _ => []

/-- Amounts of the item lines of a built payload, in order. -/
def payload_item_amounts (p : JVal) : List JVal :=
  match (jField p "order").bind (fun o => jField o "items") with
  | some (.arr l) => l.filterMap (fun it => jField it "amount")
  | _ => []

/-- Payments list of a built payload. -/
def payload_payments (p : JVal) : Option JVal :=
  (jField p "order").bind (fun o => jField o "payments")

/-- Phone field of a built payload's order. -/
def payload_phone (p : JVal) : Option JVal :=
  (jField p "order").bind (fun o => jField o "phone")

/-- Terminal-groups response body with the given active and sleeping
partitions, in the exact field names of the remote API. -/
def mkTGBody (act slp : List JVal) : JVal :=
  .obj [("terminalGroups", .arr act), ("terminalGroupsInSleep", .arr slp)]

/-- One response block owning `items` on behalf of organization `oid`. -/
def tgBlock (oid : String) (items : List JVal) : JVal :=
  .obj [("organizationId", .str oid), ("items", .arr items)]

/-- One response item carrying only an `id`. -/
def tgItem (idv : String) : JVal := .obj [("id", .str idv)]

/-! ## Theorems settling the claims -/

/-- C6 — when the token endpoint returns a body lacking the token field
(e.g. `{}`), a non-2xx status, or a malformed body, `get_access_token`
produces no token and `main` returns before any subsequent pipeline step. -/
theorem C6_auth_failure_aborts (r : HttpResult)
    (h : (∃ kvs, r = .ok (.obj kvs) ∧ lookupKey kvs "token" = none) ∨
         (∃ s, r = .httpErr s) ∨ r = .exn) :
    get_access_token r = none ∧ main_proceeds_past_auth r = false := by
  rcases h with ⟨kvs, rfl, hk⟩ | ⟨s, rfl⟩ | rfl
  · refine ⟨?_, ?_⟩ <;> simp [get_access_token, main_proceeds_past_auth, hk]
  · exact ⟨rfl, rfl⟩
  · exact ⟨rfl, rfl⟩

/-- Witness for C6 at the empty-body response `{}`. -/
theorem C6_auth_failure_aborts_witness :
    get_access_token (.ok (.obj [])) = none ∧
      main_proceeds_past_auth (.ok (.obj [])) = false :=
  C6_auth_failure_aborts (.ok (.obj [])) (Or.inl ⟨[], rfl, rfl⟩)

/-- C3 counterexample — a non-2xx status does NOT fail with a distinct
`CatalogError` outcome: both lookups return the empty sequence on a
transport failure, the very value a zero-sections / zero-payment-types
response returns, so the two cases are indistinguishable by return value. -/
theorem C3_counterexample :
    get_available_restaurant_sections (.httpErr "500 Server Error") = [] ∧
    get_payment_types (.httpErr "500 Server Error") = [] ∧
    get_available_restaurant_sections (.httpErr "500 Server Error") =
      get_available_restaurant_sections
        (.ok (.obj [("restaurantSections", .arr [])])) ∧
    get_payment_types (.httpErr "500 Server Error") =
      get_payment_types (.ok (.obj [("paymentTypes", .arr [])])) :=
  ⟨rfl, rfl, rfl, rfl⟩

/-- C3 amended — a zero-result response, a non-2xx status, and an
unparseable body all yield the empty sequence from both catalog lookups:
the failure is reported only through logging, with no distinct error
outcome in the return value. -/
theorem C3_empty_and_failure_conflated (s : String)
    (kvs₁ kvs₂ : List (String × JVal))
    (h₁ : lookupKeyD kvs₁ "restaurantSections" (.arr []) = .arr [])
    (h₂ : lookupKeyD kvs₂ "paymentTypes" (.arr []) = .arr []) :
    get_available_restaurant_sections (.httpErr s) = [] ∧
    get_payment_types (.httpErr s) = [] ∧
    get_available_restaurant_sections .exn = [] ∧
    get_payment_types .exn = [] ∧
    get_available_restaurant_sections (.ok (.obj kvs₁)) = [] ∧
    get_payment_types (.ok (.obj kvs₂)) = [] := by
  refine ⟨rfl, rfl, rfl, rfl, ?_, ?_⟩ <;>
    simp [get_available_restaurant_sections, get_payment_types, h₁, h₂]

/-- Witness for C3 amended at a 500 response and empty-result bodies. -/
theorem C3_empty_and_failure_conflated_witness :
    get_available_restaurant_sections (.httpErr "500") = [] ∧
    get_payment_types (.httpErr "500") = [] ∧
    get_available_restaurant_sections .exn = [] ∧
    get_payment_types .exn = [] ∧
    get_available_restaurant_sections
      (.ok (.obj [("restaurantSections", .arr [])])) = [] ∧
    get_payment_types (.ok (.obj [("paymentTypes", .arr [])])) = [] :=
  C3_empty_and_failure_conflated "500"
    [("restaurantSections", .arr [])] [("paymentTypes", .arr [])] rfl rfl

/-- C7 counterexample — with a blank customer phone the built document
still contains the phone field, as the blank string, rather than omitting
it. -/
theorem C7_counterexample :
    payload_phone (order_payload "oid" "pos"
      { organization_id := .str "o", terminal_group_id := .str "t",
        table_id := .str "tb", customer_name := "Guest",
        customer_phone := "", product_id := "prod", product_price := 10,
        product_quantity := 2, payment_type_id := .str "pt",
        payment_sum := 20 }) = some (.str "") ∧
    (some (JVal.str "") ≠ (none : Option JVal)) :=
  ⟨rfl, by simp⟩

/-- C7 amended — the phone field is always present in the built order
document, carrying the supplied string verbatim, even when it is blank. -/
theorem C7_phone_always_present (order_id position_id : String)
    (i : OrderInputs) :
    payload_phone (order_payload order_id position_id i) =
      some (.str i.customer_phone) := rfl

/-- C10 — for every input the single payment of the built document has the
literal `paymentTypeKind` `"Cash"` and the three external-processing flags
`false`; only the sum and the payment-type id come from the selection, so
the selected payment type's kind is never propagated. -/
theorem C10_payment_literals (order_id position_id : String)
    (i : OrderInputs) :
    payload_payments (order_payload order_id position_id i) =
      some (.arr [.obj [("paymentTypeKind", .str "Cash"),
                        ("sum", .num i.payment_sum),
                        ("paymentTypeId", i.payment_type_id),
                        ("isProcessedExternally", .bool false),
                        ("isFiscalizedExternally", .bool false),
                        ("isPrepay", .bool false)]]) := rfl

/-- C8 — `create_order` issues exactly one POST per call, returns the full
parsed body on a 2xx response, and on a non-2xx status or unparseable
body returns the empty dict, which `main`'s `if result:` check classifies
as a failed submission; no path retries the request. -/
theorem C8_submit_once (r : HttpResult) :
    (create_order r).2 = 1 ∧
    (∀ b, r = .ok b → (create_order r).1 = b) ∧
    ((r = .exn ∨ ∃ s, r = .httpErr s) →
      (create_order r).1 = .obj [] ∧
        submission_failed (create_order r).1 = true) := by
  refine ⟨?_, ?_, ?_⟩
  · cases r <;> rfl
  · rintro b rfl; rfl
  · rintro (rfl | ⟨s, rfl⟩) <;> exact ⟨rfl, rfl⟩

/-- Witness for C8 at a 500 response and a successful response. -/
theorem C8_submit_once_witness :
    (create_order (.httpErr "500")).1 = .obj [] ∧
    submission_failed (create_order (.httpErr "500")).1 = true ∧
    (create_order (.ok (.str "orderNumber 42"))).1 = .str "orderNumber 42" ∧
    (create_order (.httpErr "500")).2 = 1 :=
  ⟨((C8_submit_once (.httpErr "500")).2.2 (Or.inr ⟨"500", rfl⟩)).1,
   ((C8_submit_once (.httpErr "500")).2.2 (Or.inr ⟨"500", rfl⟩)).2,
   (C8_submit_once (.ok (.str "orderNumber 42"))).2.1 _ rfl,
   (C8_submit_once (.httpErr "500")).1⟩

/-- C9 counterexample — the payment-type prompt does NOT abort on a
non-numeric selection index: it proceeds with the first payment type. -/
theorem C9_counterexample :
    select_payment_type_index "abc" 3 = .chosen 0 ∧
    (PromptOutcome.chosen 0 ≠ PromptOutcome.abort) :=
  ⟨rfl, by simp⟩

/-- C9 amended — the organization, terminal-group and table prompts abort
on a non-numeric or out-of-range index; the payment-type prompt aborts on
an out-of-range numeric index but falls back to the first payment type on
non-numeric input instead of aborting. -/
theorem C9_selection_aborts :
    (∀ (inp : String) (n : Nat), pyInt inp = none →
        select_index inp n = .abort) ∧
    (∀ (inp : String) (n : Nat) (i : Int), pyInt inp = some i →
        (i < 1 ∨ i > (n : Int)) → select_index inp n = .abort) ∧
    (∀ (inp : String) (n : Nat) (i : Int), pyStrip inp ≠ "" →
        pyInt inp = some i → (i < 1 ∨ i > (n : Int)) →
        select_payment_type_index inp n = .abort) ∧
    (∀ (inp : String) (n : Nat), pyStrip inp ≠ "" → pyInt inp = none →
        select_payment_type_index inp n = .chosen 0) := by
  refine ⟨?_, ?_, ?_, ?_⟩
  · intro inp n h; simp [select_index, h]
  · intro inp n i h hr; simp [select_index, h, hr]
  · intro inp n i hs h hr; simp [select_payment_type_index, hs, h, hr]
  · intro inp n hs h; simp [select_payment_type_index, hs, h]

/-- Witness for C9 amended: abort cases of the three generic prompts and
both behaviours of the payment-type prompt at concrete inputs. -/
theorem C9_selection_aborts_witness :
    select_index "abc" 5 = .abort ∧
    select_index "9" 3 = .abort ∧
    select_payment_type_index "0" 3 = .abort ∧
    select_payment_type_index "abc" 3 = .chosen 0 :=
  ⟨C9_selection_aborts.1 "abc" 5 rfl,
   C9_selection_aborts.2.1 "9" 3 9 rfl (Or.inr (by norm_num)),
   C9_selection_aborts.2.2.1 "0" 3 0 (by decide) rfl (Or.inl (by norm_num)),
   C9_selection_aborts.2.2.2 "abc" 3 (by decide) rfl⟩

/-- C5 — the payment sum defaults to `price × quantity` whenever the
operator supplies a blank sum or one that fails to parse as a float; in
particular with price `10.0`, quantity `2.0` and a blank sum the built
document's single payment carries the sum `20`. -/
theorem C5_payment_sum_default :
    (∀ (p q : Rat) (s : String), pyStrip s = "" ∨ pyFloat s = none →
        payment_sum_step p q s = p * q) ∧
    (main_build_document "oid" "pos" (.str "org") (.str "tg") (.str "tbl")
        (.str "pt") "Guest" "" "prod" "10.0" "2.0" "").map
      payload_payment_sums = some [.num 20] := by
  constructor
  · rintro p q s (h | h) <;> simp [payment_sum_step, h]
  · with_unfolding_all rfl

/-- Witness for C5 at a non-numeric sum input. -/
theorem C5_payment_sum_default_witness : payment_sum_step 3 4 "abc" = 12 :=
  (C5_payment_sum_default.1 3 4 "abc" (Or.inr rfl)).trans (by norm_num)

/-- C1 counterexample — the order-details step accepts a negative price
and a zero quantity (only parseability is checked), and the resulting
document carries a payment sum `-10 < 0` and an item amount `0 ≤ 0`,
contradicting both halves of the claim. -/
theorem C1_counterexample :
    order_details_step "prod-1" "-5" "2" "" = some (-5, 2, -10) ∧
    (main_build_document "oid" "pos" (.str "org") (.str "tg") (.str "tbl")
        (.str "pt") "Guest" "" "prod-1" "-5" "2" "").map
      payload_payment_sums = some [.num (-10)] ∧
    ((-10 : Rat) < 0) ∧
    (main_build_document "oid" "pos" (.str "org") (.str "tg") (.str "tbl")
        (.str "pt") "Guest" "" "prod-1" "5" "0" "").map
      payload_item_amounts = some [.num 0] ∧
    ¬ ((0 : Rat) > 0) :=
  ⟨by with_unfolding_all rfl, by with_unfolding_all rfl, by norm_num,
   by with_unfolding_all rfl, by norm_num⟩

/-- C1 amended — the order-details step accepts the operator's price and
quantity iff the product id is non-blank and both parse as floats; sign
and zero are not checked, so negative or zero values pass through.  On a
parse failure (or blank product id) the run aborts and no document is
built. -/
theorem C1_details_accept_iff :
    (∀ pid pstr qstr sstr,
        (order_details_step pid pstr qstr sstr).isSome = true ↔
          (pyStrip pid ≠ "" ∧ (pyFloat pstr).isSome = true ∧
            (pyFloat qstr).isSome = true)) ∧
    (∀ oid pos org tg tbl pt nm ph pid pstr qstr sstr,
        pyFloat pstr = none ∨ pyFloat qstr = none ∨ pyStrip pid = "" →
        main_build_document oid pos org tg tbl pt nm ph pid pstr qstr sstr
          = none) := by
  constructor
  · intro pid pstr qstr sstr
    by_cases h : pyStrip pid = ""
    · simp [order_details_step, h]
    · cases hp : pyFloat pstr <;> cases hq : pyFloat qstr <;>
        simp [order_details_step, h, hp, hq]
  · rintro oid pos org tg tbl pt nm ph pid pstr qstr sstr (h | h | h) <;>
      · simp only [main_build_document, order_details_step, h]
        split <;> simp_all

/-- Witness for C1 amended: a non-numeric price yields no document, while
a parseable negative price is accepted. -/
theorem C1_details_accept_iff_witness :
    main_build_document "oid" "pos" (.str "org") (.str "tg") (.str "tbl")
        (.str "pt") "Guest" "" "prod" "abc" "2" "" = none ∧
    (order_details_step "prod" "-5" "2" "").isSome = true :=
  ⟨C1_details_accept_iff.2 "oid" "pos" (.str "org") (.str "tg") (.str "tbl")
      (.str "pt") "Guest" "" "prod" "abc" "2" "" (Or.inl rfl),
   (C1_details_accept_iff.1 "prod" "-5" "2" "").mpr
     ⟨by decide, rfl, rfl⟩⟩

/-- Every group produced by the items loop carries the organizationId of
the block it was read from. -/
theorem tgItems_org (oid : Option JVal) :
    ∀ (items : List JVal) (gs : List TGroup), tgItems oid items = .ok gs →
      ∀ g ∈ gs, g.organizationId = oid := by
  intro items
  induction items with
  | nil =>
      intro gs h g hg
      simp only [tgItems] at h
      cases h
      simp at hg
  | cons it rest ih =>
      intro gs h g hg
      cases it <;> simp only [tgItems] at h <;> try exact absurd h (by simp)
      case obj kvs =>
        split at h
        · exact absurd h (by simp)
        · split at h
          · cases h
            exact ih _ (by assumption) g hg
          · split at h
            · cases h
              exact ih _ (by assumption) g hg
            · cases h
              rcases hg with _ | hg'
              · rfl
              · exact ih _ (by assumption) g (by assumption)

/-- Every group produced by the block loop takes its organizationId from
the `organizationId` field of one of the processed blocks. -/
theorem tgBlocksRun_org :
    ∀ (blocks : List JVal) (gs : List TGroup), tgBlocksRun blocks = .ok gs →
      ∀ g ∈ gs, ∃ kvs, (JVal.obj kvs) ∈ blocks ∧
        g.organizationId = lookupKey kvs "organizationId" := by
  intro blocks
  induction blocks with
  | nil =>
      intro gs h g hg
      simp only [tgBlocksRun] at h
      cases h
      simp at hg
  | cons b rest ih =>
      intro gs h g hg
      cases b <;> simp only [tgBlocksRun] at h <;> try exact absurd h (by simp)
      case obj kvs =>
        split at h
        · split at h
          · exact absurd h (by simp)
          · split at h
            · exact absurd h (by simp)
            · cases h
              rcases List.mem_append.mp hg with hcur | htail
              · exact ⟨kvs, List.mem_cons_self _ _,
                  tgItems_org _ _ _ (by assumption) g hcur⟩
              · obtain ⟨kvs', hmem, heq⟩ := ih _ (by assumption) g htail
                exact ⟨kvs', List.mem_cons_of_mem _ hmem, heq⟩
        · exact absurd h (by simp)

/-- C2 counterexample — the claim fails for an adversarial service
response: scoped to the single organization `org1`, `get_terminal_groups`
still returns a group whose `organizationId` is `org2`, because the
organization id is copied verbatim from the response and never checked
against the request's scoping identifiers. -/
theorem C2_counterexample :
    get_terminal_groups [JVal.str "org1"]
      (.ok (.obj [("terminalGroups",
        .arr [.obj [("organizationId", .str "org2"),
                    ("items", .arr [.obj [("id", .str "g1")]])]])]))
      = [⟨.str "g1", .str "NoName", some (.str "org2")⟩] ∧
    (some (JVal.str "org2") ∉ ([JVal.str "org1"]).map some) :=
  ⟨rfl, by simp⟩

/-- C2 amended — `get_terminal_groups` passes the scoping identifiers only
into the request and attaches each response block's `organizationId`
verbatim; consequently the returned groups are scoped to `S` exactly when
every block of the service's response carries an organization id in `S`. -/
theorem C2_scoping (S : List JVal) (kvs : List (String × JVal))
    (hblocks : ∀ b ∈ tg_response_blocks (.obj kvs), ∀ bkvs, b = .obj bkvs →
        lookupKey bkvs "organizationId" ∈ S.map some) :
    ∀ g ∈ get_terminal_groups S (.ok (.obj kvs)),
      g.organizationId ∈ S.map some := by
  intro g hg
  cases hp : tgParse (.obj kvs) with
  | error e => simp [get_terminal_groups, hp] at hg
  | ok gs =>
      simp only [get_terminal_groups, hp] at hg
      cases hact : lookupKeyD kvs "terminalGroups" (.arr []) <;>
        simp only [tgParse, hact] at hp <;> try exact absurd hp (by simp)
      case arr act =>
        cases hslp : lookupKeyD kvs "terminalGroupsInSleep" (.arr []) <;>
          simp only [hslp] at hp <;> try exact absurd hp (by simp)
        case arr slp =>
          obtain ⟨bkvs, hmem, heq⟩ := tgBlocksRun_org _ _ hp g hg
          rw [heq]
          refine hblocks (.obj bkvs) ?_ bkvs rfl
          simpa [tg_response_blocks, hact, hslp] using hmem

/-- Witness for C2 amended: a response honouring the scoping yields a
group whose organization id lies in the scope. -/
theorem C2_scoping_witness :
    (⟨.str "A", .str "NoName", some (.str "o1")⟩ : TGroup).organizationId ∈
      ([JVal.str "o1"]).map some :=
  C2_scoping [JVal.str "o1"]
    [("terminalGroups", .arr [tgBlock "o1" [tgItem "A"]])]
    (by
      intro b hb bkvs hbk
      simp only [show tg_response_blocks
          (JVal.obj [("terminalGroups", JVal.arr [tgBlock "o1" [tgItem "A"]])])
          = [tgBlock "o1" [tgItem "A"]] from rfl,
        List.mem_singleton] at hb
      subst hb
      simp only [tgBlock, JVal.obj.injEq] at hbk
      subst hbk
      simp [lookupKey])
    _ (List.mem_singleton.mpr rfl)

/-- Blocks of the active partition are processed before blocks of the
sleeping partition, and their groups concatenate in that order. -/
theorem tgBlocksRun_append :
    ∀ (act slp : List JVal) (ga gs : List TGroup),
      tgBlocksRun act = .ok ga → tgBlocksRun slp = .ok gs →
      tgBlocksRun (act ++ slp) = .ok (ga ++ gs) := by
  intro act
  induction act with
  | nil =>
      intro slp ga gs ha hs
      simp only [tgBlocksRun] at ha
      cases ha
      simpa using hs
  | cons b rest ih =>
      intro slp ga gs ha hs
      cases b <;> simp only [List.cons_append, tgBlocksRun] at ha ⊢ <;>
        try exact absurd ha (by simp)
      case obj kvs =>
        cases hi : lookupKeyD kvs "items" (.arr []) <;>
          simp only [hi] at ha ⊢ <;> try exact absurd ha (by simp)
        case arr xs =>
          cases hc : tgItems (lookupKey kvs "organizationId") xs with
          | error e => simp only [hc] at ha; exact absurd ha (by simp)
          | ok cur =>
              simp only [hc] at ha ⊢
              cases hr : tgBlocksRun rest with
              | error e => simp only [hr] at ha; exact absurd ha (by simp)
              | ok tail =>
                  simp only [hr] at ha
                  cases ha
                  simp only [List.append_eq]
                  rw [ih slp tail gs hr hs]
                  simp [List.append_assoc]

/-- C4 counterexample — with the identifiers swapped between the fields
(active supplies `{id: B}`, sleeping supplies `{id: A}`) the merged result
is `[B, A]`, not `[A, B]`: the relative order follows the partitions, so
it is NOT `[A, B]` regardless of which field supplied which. -/
theorem C4_counterexample :
    get_terminal_groups [] (.ok (mkTGBody [tgBlock "o1" [tgItem "B"]]
        [tgBlock "o2" [tgItem "A"]])) =
      [⟨.str "B", .str "NoName", some (.str "o1")⟩,
       ⟨.str "A", .str "NoName", some (.str "o2")⟩] ∧
    ([(⟨.str "B", .str "NoName", some (.str "o1")⟩ : TGroup),
      ⟨.str "A", .str "NoName", some (.str "o2")⟩] ≠
     [(⟨.str "A", .str "NoName", some (.str "o2")⟩ : TGroup),
      ⟨.str "B", .str "NoName", some (.str "o1")⟩]) :=
  ⟨rfl, by simp [TGroup.mk.injEq]⟩

/-- C4 amended — `get_terminal_groups` merges the active and sleeping
partitions into one flat sequence with the active partition's groups
first, attaching each block's `organizationId`; items lacking an id are
silently dropped; with one active group `{id: A}` and one sleeping group
`{id: B}` the result is exactly `[A, B]`, while swapping the fields gives
`[B, A]` — the relative order follows the partitions. -/
theorem C4_merge (S : List JVal) (act slp : List JVal) (ga gs : List TGroup)
    (ha : tgBlocksRun act = .ok ga) (hs : tgBlocksRun slp = .ok gs) :
    get_terminal_groups S (.ok (mkTGBody act slp)) = ga ++ gs ∧
    get_terminal_groups S (.ok (mkTGBody [tgBlock "o1" [tgItem "A"]]
        [tgBlock "o2" [tgItem "B"]])) =
      [⟨.str "A", .str "NoName", some (.str "o1")⟩,
       ⟨.str "B", .str "NoName", some (.str "o2")⟩] ∧
    (∀ (oid : Option JVal) (bkvs : List (String × JVal)) (rest : List JVal),
        lookupKey bkvs "id" = none →
        tgItems oid (.obj bkvs :: rest) = tgItems oid rest) := by
  refine ⟨?_, rfl, ?_⟩
  · have happ := tgBlocksRun_append act slp ga gs ha hs
    simp [get_terminal_groups, tgParse, mkTGBody, lookupKeyD, lookupKey, happ]
  · intro oid bkvs rest hid
    cases hr : tgItems oid rest <;> simp [tgItems, hid, hr]

/-- Witness for C4 amended at the one-active-group, one-sleeping-group
response: active groups come first in the merged result. -/
theorem C4_merge_witness :
    get_terminal_groups [] (.ok (mkTGBody [tgBlock "o1" [tgItem "A"]]
        [tgBlock "o2" [tgItem "B"]])) =
      [(⟨.str "A", .str "NoName", some (.str "o1")⟩ : TGroup)] ++
      [⟨.str "B", .str "NoName", some (.str "o2")⟩] :=
  (C4_merge [] [tgBlock "o1" [tgItem "A"]] [tgBlock "o2" [tgItem "B"]]
    [⟨.str "A", .str "NoName", some (.str "o1")⟩]
    [⟨.str "B", .str "NoName", some (.str "o2")⟩] rfl rfl).1

end Syrve
